import Mathlib

/-!
# Verification of the named-pipe client helper

A shallow embedding of `openjd/adaptor_runtime/_named_pipe/named_pipe_helper.py`.

Conventions of the embedding:
* Python strings are Lean `String` (sequences of unicode scalar values; Python
  strings that contain lone surrogates are outside the model, as they cannot be
  produced by decoding UTF-8 nor encoded to UTF-8).
* Bytes are `List Nat` (each entry < 256 in every reachable state).
* The Windows API (`win32file.CreateFile`, `win32file.ReadFile`,
  `win32file.WriteFile`, `win32pipe.SetNamedPipeHandleState`) is modelled by an
  environment (`Env`) that fixes the outcome of each call, mirroring every
  outcome the Python code distinguishes.
* Wall-clock time (`time.time()`, `time.sleep`) is modelled in integer
  milliseconds: the environment supplies the duration of each `CreateFile`
  attempt and `time.sleep(0.1)` advances the clock by 100 ms.
* JSON models the integer-numbered subset of Python's `json` module
  (`json.dumps` with its default `ensure_ascii=True` encoder and separators,
  `json.loads` for the same subset; floating-point literals are outside the
  model).
-/

/-! ## Low-level error model

`pywintypes.error` carries a numeric code, the failing function's name and a
human-readable message. -/

structure WinErr where
  winerror : Int
  funcname : String
  strerror : String
deriving DecidableEq

/-- Numeric values of the `winerror` module constants used by the source. -/
def ERROR_BROKEN_PIPE : Int := 109

def ERROR_PIPE_NOT_CONNECTED : Int := 233

def ERROR_INVALID_HANDLE : Int := 6

def ERROR_FILE_NOT_FOUND : Int := 2

def ERROR_PIPE_BUSY : Int := 231

def ERROR_MORE_DATA : Int := 234

def NO_ERROR : Int := 0

/-- Data carried by `PipeDisconnectedException.__init__`: the original code,
function name and message of the `pywintypes.error`, plus the formatted
message built by the constructor. -/
structure PipeDiscData where
  winerror : Int
  funcname : String
  strerror : String
  message : String
deriving DecidableEq

/-- Model of `PipeDisconnectedException.__init__` applied to a `pywintypes.error`. -/
def mkPipeDisconnected (e : WinErr) : PipeDiscData :=
  { winerror := e.winerror
    funcname := e.funcname
    strerror := e.strerror
    message := "An error occurred: " ++ e.strerror ++ " (Error code: "
      ++ toString e.winerror ++ ") in function " ++ e.funcname }

/-- Every exception that can escape `send_named_pipe_request` in the model:
`PipeDisconnectedException`, `NamedPipeTimeoutError` (duration in ms),
a re-raised `pywintypes.error`, the `IOError` raised on an unexpected
`ReadFile` status code, `json.JSONDecodeError` from `json.loads`,
`UnicodeDecodeError` from `bytes.decode("utf-8")`, and `RecursionError` from
`json.dumps` on a value nested beyond the interpreter's recursion limit. -/
inductive PyErr where
  | pipeDisconnected (d : PipeDiscData)
  | namedPipeTimeout (durationMs : Int) (error : WinErr)
  | winError (e : WinErr)
  | ioError (msg : String)
  | jsonDecodeError
  | unicodeDecodeError
  | recursionError
deriving DecidableEq

/-- Model of `NamedPipeHelper._handle_pipe_exception`: raise `PipeDisconnectedException`
for the three disconnection codes, re-raise the original error otherwise. -/
def handle_pipe_exception (e : WinErr) : PyErr :=
  if e.winerror ∈ [ERROR_BROKEN_PIPE, ERROR_PIPE_NOT_CONNECTED, ERROR_INVALID_HANDLE] then
    .pipeDisconnected (mkPipeDisconnected e)
  else
    .winError e

/-- The spec's error taxonomy (section 7), plus a tag for anything that falls
outside it. -/
inductive ErrKind where
  | timeout
  | disconnected
  | ioFailure
  | protocolDecodeFailure
  | uncategorized
deriving DecidableEq

/-- Mapping of the concrete Python exceptions onto the spec's taxonomy:
`NamedPipeTimeoutError` is `Timeout`, `PipeDisconnectedException` is
`Disconnected`, a re-raised `pywintypes.error` or the reader's `IOError` is
`IOFailure`, `json.JSONDecodeError` is `ProtocolDecodeFailure`.
`UnicodeDecodeError` appears in none of the four spec categories. -/
def errKind : PyErr → ErrKind
  | .pipeDisconnected _ => .disconnected
  | .namedPipeTimeout _ _ => .timeout
  | .winError _ => .ioFailure
  | .ioError _ => .ioFailure
  | .jsonDecodeError => .protocolDecodeFailure
  | .unicodeDecodeError => .uncategorized
  | .recursionError => .uncategorized

/-! ## UTF-8

`str.encode("utf-8")` and `bytes.decode("utf-8")` (strict mode), modelled on
unicode scalar values. The decoder rejects continuation-byte prefixes, overlong
forms, surrogates and out-of-range values, exactly as CPython's strict decoder
does. -/

/-- UTF-8 encoding of one unicode scalar value. -/
def utf8EncodeChar (n : Nat) : List Nat :=
  if n < 128 then [n]
  else if n < 2048 then [192 + n / 64, 128 + n % 64]
  else if n < 65536 then [224 + n / 4096, 128 + n / 64 % 64, 128 + n % 64]
  else [240 + n / 262144, 128 + n / 4096 % 64, 128 + n / 64 % 64, 128 + n % 64]

/-- UTF-8 encoding of a list of characters. -/
def utf8EncodeChars (l : List Char) : List Nat :=
  (l.map (fun c => utf8EncodeChar c.toNat)).flatten

/-- Model of `str.encode("utf-8")`. -/
def utf8Encode (s : String) : List Nat :=
  utf8EncodeChars s.data

/-- Is `b` a UTF-8 continuation byte? -/
def isCont (b : Nat) : Bool := 128 ≤ b && b < 192

/-- Decode one scalar value from the front of a byte sequence; `none` on any
malformed prefix (truncation, bad lead or continuation byte, overlong form,
surrogate, value above U+10FFFF). -/
def utf8DecodeOne : List Nat → Option (Nat × List Nat)
  | [] => none
  | b0 :: r =>
    if b0 < 128 then some (b0, r)
    else if b0 < 194 then none
    else if b0 < 224 then
      match r with
      | b1 :: r1 => if isCont b1 then some ((b0 - 192) * 64 + (b1 - 128), r1) else none
      | [] => none
    else if b0 < 240 then
      match r with
      | b1 :: b2 :: r2 =>
        if isCont b1 && isCont b2 then
          let n := (b0 - 224) * 4096 + (b1 - 128) * 64 + (b2 - 128)
          if n < 2048 then none
          else if 55296 ≤ n && n < 57344 then none
          else some (n, r2)
        else none
      | _ => none
    else if b0 < 245 then
      match r with
      | b1 :: b2 :: b3 :: r3 =>
        if isCont b1 && isCont b2 && isCont b3 then
          let n := (b0 - 240) * 262144 + (b1 - 128) * 4096 + (b2 - 128) * 64 + (b3 - 128)
          if n < 65536 then none
          else if 1114112 ≤ n then none
          else some (n, r3)
        else none
      | _ => none
    else none

/-- Fuel-driven decode loop (the fuel is an upper bound on the number of
decoded characters; `utf8Decode` supplies the byte count). -/
def utf8DecodeAux : Nat → List Nat → Option (List Nat)
  | _, [] => some []
  | 0, _ :: _ => none
  | fuel + 1, b :: bs =>
    match utf8DecodeOne (b :: bs) with
    | some (n, rest) => (utf8DecodeAux fuel rest).map (fun l => n :: l)
    | none => none

/-- Model of `bytes.decode("utf-8")` at the scalar-value level. -/
def utf8DecodeNat (bs : List Nat) : Option (List Nat) :=
  utf8DecodeAux bs.length bs

/-- Model of `bytes.decode("utf-8")`, producing a string. -/
def utf8Decode (bs : List Nat) : Option String :=
  (utf8DecodeNat bs).map (fun l => String.mk (l.map Char.ofNat))

/-! ## Frame reader and writer

`win32file.ReadFile(handle, NAMED_PIPE_BUFFER_SIZE)` either returns a pair
`(return_code, data)` or raises a `pywintypes.error`; the environment fixes the
outcome of each successive call. Chunk sizes are chosen by the environment (the
source bounds them by the fixed buffer constant `NAMED_PIPE_BUFFER_SIZE`,
defined outside this module). -/

inductive ReadEvent where
  | chunk (returnCode : Int) (data : List Nat)
  | fail (e : WinErr)
deriving DecidableEq

/-- Result of a modelled Python call: normal return, a raised exception, or a
call that blocks forever because the environment supplies no further event. -/
inductive Outcome (α : Type) where
  | ok (a : α)
  | err (e : PyErr)
  | hang

/-- The `while True` loop of `NamedPipeHelper.read_from_pipe`: decode each
chunk with `bytes.decode("utf-8")` and append it to `data_parts`; continue on
`ERROR_MORE_DATA`, join and return on `NO_ERROR`, raise `IOError` on any other
status code, and route a raised `pywintypes.error` through
`_handle_pipe_exception`. The decode happens before the status-code check,
exactly as in the source. -/
def readLoop (data_parts : List String) : List ReadEvent → Outcome String
  | [] => .hang
  | .fail e :: _ => .err (handle_pipe_exception e)
  | .chunk rc data :: rest =>
    match utf8Decode data with
    | none => .err .unicodeDecodeError
    | some s =>
      let parts := data_parts ++ [s]
      if rc = ERROR_MORE_DATA then readLoop parts rest
      else if rc = NO_ERROR then .ok (String.join parts)
      else .err (.ioError ("Got error when reading from the Named Pipe with error code: "
        ++ toString rc))

/-- Model of `NamedPipeHelper.read_from_pipe`. -/
def read_from_pipe (events : List ReadEvent) : Outcome String :=
  readLoop [] events

/-- The bytes passed to `win32file.WriteFile` by
`NamedPipeHelper.write_to_pipe`: the message encoded as UTF-8. -/
def write_to_pipe_bytes (message : String) : List Nat :=
  utf8Encode message

/-- Model of `NamedPipeHelper.write_to_pipe`: a raised `pywintypes.error` is routed
through `_handle_pipe_exception`; otherwise the write succeeds. -/
def write_to_pipe (writeResult : Option WinErr) : Outcome Unit :=
  match writeResult with
  | some e => .err (handle_pipe_exception e)
  | none => .ok ()

/-! ## JSON (the integer-numbered subset of Python's `json` module) -/

inductive Json where
  | null
  | bool (b : Bool)
  | num (n : Int)
  | str (s : String)
  | arr (elems : List Json)
  | obj (members : List (String × Json))

/-- Lower-case hexadecimal digit. -/
def hexDigit (d : Nat) : Char :=
  if d < 10 then Char.ofNat (48 + d) else Char.ofNat (87 + (d % 16))

/-- Python's `"%04x" % n`. -/
def hex4 (n : Nat) : String :=
  String.mk [hexDigit (n / 4096 % 16), hexDigit (n / 256 % 16),
    hexDigit (n / 16 % 16), hexDigit (n % 16)]

/-- The `\uXXXX` escape (with a surrogate pair for astral scalars), as produced by
CPython's `ensure_ascii=True` encoder. -/
def uEscape (n : Nat) : String :=
  if n < 65536 then "\\u" ++ hex4 n
  else
    "\\u" ++ hex4 (55296 + (n - 65536) / 1024) ++ "\\u" ++ hex4 (56320 + (n - 65536) % 1024)

/-- Escape one character per CPython's `py_encode_basestring_ascii`. -/
def escapeJsonChar (c : Char) : String :=
  if c = '\\' then "\\\\"
  else if c = '"' then "\\\""
  else if c.toNat = 8 then "\\b"
  else if c.toNat = 12 then "\\f"
  else if c = '\n' then "\\n"
  else if c = '\r' then "\\r"
  else if c = '\t' then "\\t"
  else if c.toNat < 32 || 126 < c.toNat then uEscape c.toNat
  else String.singleton c

/-- A JSON string literal, `ensure_ascii=True` style. -/
def encodeJsonString (s : String) : String :=
  "\"" ++ String.join (s.data.map escapeJsonChar) ++ "\""

/-- Python's `", ".join` over already-rendered items (the default item separator of
`json.dumps`). -/
def joinComma : List String → String
  | [] => ""
  | [x] => x
  | x :: y :: rest => x ++ ", " ++ joinComma (y :: rest)

/-- Model of `json.dumps` with CPython's defaults (`ensure_ascii=True`, separators
`", "` and `": "`, insertion-ordered object members), fuel-driven: the fuel
models CPython's recursion limit and decreases at each nesting level. -/
def dumpsF : Nat → Json → Option String
  | _, .null => some "null"
  | _, .bool b => some (if b then "true" else "false")
  | _, .num n => some (toString n)
  | _, .str s => some (encodeJsonString s)
  | 0, .arr _ => none
  | 0, .obj _ => none
  | fuel + 1, .arr xs =>
    (xs.mapM (fun j => dumpsF fuel j)).map (fun rendered => "[" ++ joinComma rendered ++ "]")
  | fuel + 1, .obj ms =>
    (ms.mapM (fun kv =>
        (dumpsF fuel kv.2).map (fun v => encodeJsonString kv.1 ++ ": " ++ v))).map
      (fun rendered => "\x7b" ++ joinComma rendered ++ "\x7d")

/-- CPython's default recursion limit, the depth bound of `json.dumps`. -/
def PY_RECURSION_LIMIT : Nat := 1000

/-- Model of `json.dumps` (`none` models `RecursionError` on absurdly deep values). -/
def pyJsonDumps (j : Json) : Option String :=
  dumpsF PY_RECURSION_LIMIT j

/-! ## `json.loads`

A recursive-descent parser for the same subset, following CPython's scanner:
leading/trailing whitespace allowed, `", "`-free grammar with whitespace
between tokens, strict strings (unescaped control characters rejected),
`\uXXXX` escapes with surrogate-pair combination, objects keeping the first
position but the last value of a duplicated key. Floating-point literals,
`NaN`/`Infinity`, and lone-surrogate escapes are outside the model. -/

def lbraceChar : Char := Char.ofNat 123

def rbraceChar : Char := Char.ofNat 125

def skipWs (cs : List Char) : List Char :=
  cs.dropWhile (fun c => c = ' ' || c = '\t' || c = '\n' || c = '\r')

def hexVal (c : Char) : Option Nat :=
  let n := c.toNat
  if 48 ≤ n && n ≤ 57 then some (n - 48)
  else if 97 ≤ n && n ≤ 102 then some (n - 87)
  else if 65 ≤ n && n ≤ 70 then some (n - 55)
  else none

def hex4Val (h1 h2 h3 h4 : Char) : Option Nat := do
  let a ← hexVal h1
  let b ← hexVal h2
  let c ← hexVal h3
  let d ← hexVal h4
  some (a * 4096 + b * 256 + c * 16 + d)

/-- Scan a JSON string body (the opening quote already consumed), returning
the decoded characters and the input after the closing quote. -/
def parseStringBody : Nat → List Char → Option (List Char × List Char)
  | 0, _ => none
  | _, [] => none
  | fuel + 1, c :: cs =>
    if c = '"' then some ([], cs)
    else if c = '\\' then
      match cs with
      | [] => none
      | e :: cs1 =>
        if e = '"' || e = '\\' || e = '/' then
          (parseStringBody fuel cs1).map (fun p => (e :: p.1, p.2))
        else if e = 'b' then
          (parseStringBody fuel cs1).map (fun p => (Char.ofNat 8 :: p.1, p.2))
        else if e = 'f' then
          (parseStringBody fuel cs1).map (fun p => (Char.ofNat 12 :: p.1, p.2))
        else if e = 'n' then
          (parseStringBody fuel cs1).map (fun p => ('\n' :: p.1, p.2))
        else if e = 'r' then
          (parseStringBody fuel cs1).map (fun p => ('\r' :: p.1, p.2))
        else if e = 't' then
          (parseStringBody fuel cs1).map (fun p => ('\t' :: p.1, p.2))
        else if e = 'u' then
          match cs1 with
          | h1 :: h2 :: h3 :: h4 :: cs2 =>
            match hex4Val h1 h2 h3 h4 with
            | none => none
            | some n =>
              if 55296 ≤ n && n ≤ 56319 then
                match cs2 with
                | '\\' :: u :: h5 :: h6 :: h7 :: h8 :: cs3 =>
                  if u = 'u' then
                    match hex4Val h5 h6 h7 h8 with
                    | none => none
                    | some m =>
                      if 56320 ≤ m && m ≤ 57343 then
                        (parseStringBody fuel cs3).map
                          (fun p =>
                            (Char.ofNat (65536 + (n - 55296) * 1024 + (m - 56320)) :: p.1, p.2))
                      else none
                  else none
                | _ => none
              else if 56320 ≤ n && n ≤ 57343 then none
              else (parseStringBody fuel cs2).map (fun p => (Char.ofNat n :: p.1, p.2))
          | _ => none
        else none
    else if c.toNat < 32 then none
    else (parseStringBody fuel cs).map (fun p => (c :: p.1, p.2))

def isDigitChar (c : Char) : Bool := 48 ≤ c.toNat && c.toNat ≤ 57

def digitsToNat (ds : List Char) : Nat :=
  ds.foldl (fun acc c => acc * 10 + (c.toNat - 48)) 0

/-- An integer literal per CPython's `NUMBER_RE` integer part:
`-?(0|[1-9][0-9]*)`; a leading `0` is not followed by further digits. -/
def parseIntLit (cs : List Char) : Option (Int × List Char) :=
  match cs with
  | '-' :: rest =>
    match rest with
    | d :: _ =>
      if d = '0' then some (0, rest.tail)
      else if isDigitChar d then
        let ds := rest.takeWhile isDigitChar
        some (-(digitsToNat ds : Int), rest.drop ds.length)
      else none
    | [] => none
  | d :: _ =>
    if d = '0' then some (0, cs.tail)
    else if isDigitChar d then
      let ds := cs.takeWhile isDigitChar
      some ((digitsToNat ds : Int), cs.drop ds.length)
    else none
  | [] => none

/-- Python's `dict(pairs)`: a duplicated key keeps its first position and its last
value. -/
def upsert : List (String × Json) → String → Json → List (String × Json)
  | [], k, v => [(k, v)]
  | (k0, v0) :: rest, k, v =>
    if k0 = k then (k0, v) :: rest else (k0, v0) :: upsert rest k v

def dedupMembers (pairs : List (String × Json)) : List (String × Json) :=
  pairs.foldl (fun acc kv => upsert acc kv.1 kv.2) []

/-- Array-element loop; the input starts at the first character of the first
element, `pv` parses one value at the current nesting level. -/
def parseElems (pv : List Char → Option (Json × List Char)) :
    Nat → List Char → Option (List Json × List Char)
  | 0, _ => none
  | fuel + 1, cs => do
    let (v, cs1) ← pv cs
    match skipWs cs1 with
    | c :: cs3 =>
      if c = ',' then
        (parseElems pv fuel (skipWs cs3)).map (fun p => (v :: p.1, p.2))
      else if c = ']' then some ([v], cs3)
      else none
    | [] => none

/-- Object-member loop; the input starts at the opening quote of the first
key. -/
def parseMembers (pv : List Char → Option (Json × List Char)) :
    Nat → List Char → Option (List (String × Json) × List Char)
  | 0, _ => none
  | fuel + 1, cs =>
    match cs with
    | c :: cs0 =>
      if c = '"' then do
        let (key, cs1) ← parseStringBody (cs0.length + 1) cs0
        match skipWs cs1 with
        | c2 :: cs3 =>
          if c2 = ':' then do
            let (v, cs4) ← pv (skipWs cs3)
            match skipWs cs4 with
            | c5 :: cs6 =>
              if c5 = ',' then
                (parseMembers pv fuel (skipWs cs6)).map
                  (fun p => ((String.mk key, v) :: p.1, p.2))
              else if c5 = rbraceChar then some ([(String.mk key, v)], cs6)
              else none
            | [] => none
          else none
        | [] => none
      else none
    | [] => none

/-- Parse one JSON value; the fuel bounds the nesting depth. -/
def parseValue : Nat → List Char → Option (Json × List Char)
  | 0, _ => none
  | fuel + 1, cs0 =>
    match cs0 with
    | [] => none
    | c :: cs =>
      if c = '"' then
        (parseStringBody (cs.length + 1) cs).map (fun p => (.str (String.mk p.1), p.2))
      else if c = '[' then
        match skipWs cs with
        | c1 :: cs2 =>
          if c1 = ']' then some (.arr [], cs2)
          else
            (parseElems (parseValue fuel) (c1 :: cs2).length (c1 :: cs2)).map
              (fun p => (.arr p.1, p.2))
        | [] => none
      else if c = lbraceChar then
        match skipWs cs with
        | c1 :: cs2 =>
          if c1 = rbraceChar then some (.obj [], cs2)
          else
            (parseMembers (parseValue fuel) (c1 :: cs2).length (c1 :: cs2)).map
              (fun p => (.obj (dedupMembers p.1), p.2))
        | [] => none
      else if c = 'n' then
        match cs with
        | 'u' :: 'l' :: 'l' :: r => some (.null, r)
        | _ => none
      else if c = 't' then
        match cs with
        | 'r' :: 'u' :: 'e' :: r => some (.bool true, r)
        | _ => none
      else if c = 'f' then
        match cs with
        | 'a' :: 'l' :: 's' :: 'e' :: r => some (.bool false, r)
        | _ => none
      else (parseIntLit cs0).map (fun p => (.num p.1, p.2))

/-- Model of `json.loads` for the modelled subset: skip leading whitespace, parse one
value, allow trailing whitespace, reject anything else (`none` models
`json.JSONDecodeError`). -/
def pyJsonLoads (s : String) : Option Json :=
  let cs := skipWs s.data
  match parseValue (cs.length + 1) cs with
  | some (v, rest) => if skipWs rest = [] then some v else none
  | none => none

/-! ## Connection establishment

`NamedPipeHelper.establish_named_pipe_connection`. The environment fixes, for
each successive `win32file.CreateFile` attempt, the wall-clock time the call
consumes (in milliseconds) and its outcome (`none` = a handle is returned,
`some e` = the call raises `pywintypes.error` `e`), and the outcome of the
single `win32pipe.SetNamedPipeHandleState` call after a successful open. -/

/-- Duration of `time.sleep(0.1)` in milliseconds. -/
def SLEEP_MS : Int := 100

/-- Does `establish_named_pipe_connection` treat this code as transient
(`ERROR_FILE_NOT_FOUND` or `ERROR_PIPE_BUSY`)? -/
def transientCode (w : Int) : Bool :=
  w = ERROR_FILE_NOT_FOUND || w = ERROR_PIPE_BUSY

/-- Result of the `while handle is None` loop: its outcome, the wall-clock
time elapsed since `start_time` when the loop exits, and the number of
`CreateFile` attempts consumed. -/
structure LoopOut where
  out : Outcome Unit
  elapsedMs : Int
  used : Nat

/-- The `while handle is None` loop of `establish_named_pipe_connection`.
On a failed attempt with a transient code the loop records
`duration = time.time() - start_time`, then sleeps 100 ms, then raises
`NamedPipeTimeoutError(duration, e)` if `duration > timeout` and otherwise
retries; any other code is re-raised immediately. -/
def connectLoop (timeoutMs : Int) : Int → List (Int × Option WinErr) → LoopOut
  | elapsed, [] => ⟨.hang, elapsed, 0⟩
  | elapsed, (d, r) :: rest =>
    let el := elapsed + d
    match r with
    | none => ⟨.ok (), el, 1⟩
    | some e =>
      if transientCode e.winerror then
        let duration := el
        if duration > timeoutMs then ⟨.err (.namedPipeTimeout duration e), el + SLEEP_MS, 1⟩
        else
          let next := connectLoop timeoutMs (el + SLEEP_MS) rest
          ⟨next.out, next.elapsedMs, next.used + 1⟩
      else ⟨.err (.winError e), el, 1⟩

/-- Environment of one `send_named_pipe_request` call. -/
structure Env where
  attempts : List (Int × Option WinErr)
  setState : Option WinErr
  writeResult : Option WinErr
  readEvents : List ReadEvent

/-- Result of `establish_named_pipe_connection`: outcome, whether a handle was
ever created by `CreateFile`, wall-clock time elapsed, attempts consumed. -/
structure ConnOut where
  out : Outcome Unit
  opened : Bool
  elapsedMs : Int
  used : Nat

/-- Model of `NamedPipeHelper.establish_named_pipe_connection`: run the open loop, then
call `win32pipe.SetNamedPipeHandleState` on the fresh handle (outside any
`try`: an error raised there propagates with the handle already open). -/
def establish_named_pipe_connection (env : Env) (timeoutMs : Int) : ConnOut :=
  let l := connectLoop timeoutMs 0 env.attempts
  match l.out with
  | .ok _ =>
    match env.setState with
    | none => ⟨.ok (), true, l.elapsedMs, l.used⟩
    | some e => ⟨.err (.winError e), true, l.elapsedMs, l.used⟩
  | .err e => ⟨.err e, false, l.elapsedMs, l.used⟩
  | .hang => ⟨.hang, false, l.elapsedMs, l.used⟩

/-! ## Request client (`send_named_pipe_request`) -/

/-- Python truthiness of an `Optional[Dict]` argument: `None` and the empty
dict are falsy. -/
def pyTruthy : Option (List (String × Json)) → Bool
  | none => false
  | some d => !d.isEmpty

/-- The `message_dict` built by `send_named_pipe_request`: `method` and `path`
always; `body` (when `json_body` is truthy) and then `params` (when `params`
is truthy), each re-serialized to its own JSON string by `json.dumps`
(`none` models a `RecursionError` raised by one of those `json.dumps`
calls). -/
def envelopeDict (method path : String) (params json_body : Option (List (String × Json))) :
    Option (List (String × Json)) := do
  let base := [("method", Json.str method), ("path", Json.str path)]
  let withBody ←
    if pyTruthy json_body then
      (pyJsonDumps (Json.obj (json_body.getD []))).map
        (fun s => base ++ [("body", Json.str s)])
    else some base
  if pyTruthy params then
    (pyJsonDumps (Json.obj (params.getD []))).map
      (fun s => withBody ++ [("params", Json.str s)])
  else some withBody

/-- The value `message = json.dumps(message_dict)`: the wire message written to the
pipe. -/
def wireMessage (method path : String) (params json_body : Option (List (String × Json))) :
    Option String :=
  (envelopeDict method path params json_body).bind (fun d => pyJsonDumps (Json.obj d))

/-- Observable result of one `send_named_pipe_request` call: its outcome,
whether a pipe handle was created, and how many times `handle.close()` ran. -/
structure SendOut where
  result : Outcome Json
  opened : Bool
  closes : Nat

/-- Model of `NamedPipeHelper.send_named_pipe_request`: establish the connection, then
inside `try`: build the envelope, write it, read the response; `finally`:
`handle.close()`; after the `try`, `json.loads(result)`. The `finally` runs on
every exit from the `try` body, and only then; `json.loads` runs after the
handle is closed. -/
def send_named_pipe_request (env : Env) (timeoutMs : Int) (method path : String)
    (params json_body : Option (List (String × Json))) : SendOut :=
  let c := establish_named_pipe_connection env timeoutMs
  match c.out with
  | .err e => ⟨.err e, c.opened, 0⟩
  | .hang => ⟨.hang, c.opened, 0⟩
  | .ok _ =>
    match wireMessage method path params json_body with
    | none => ⟨.err .recursionError, c.opened, 1⟩
    | some _message =>
      let bodyOut : Outcome String :=
        match write_to_pipe env.writeResult with
        | .err e => .err e
        | .hang => .hang
        | .ok _ => read_from_pipe env.readEvents
      match bodyOut with
      | .hang => ⟨.hang, c.opened, 0⟩
      | .err e => ⟨.err e, c.opened, 1⟩
      | .ok raw =>
        match pyJsonLoads raw with
        | none => ⟨.err .jsonDecodeError, c.opened, 1⟩
        | some v => ⟨.ok v, c.opened, 1⟩

/-! ## Auxiliary definitions for the stated properties -/

/-- A well-formed chunked delivery of the message pieces `ps`: each chunk
carries the UTF-8 bytes of its piece and the `ERROR_MORE_DATA` indicator,
except the last, which carries `NO_ERROR`. -/
def mkReadEvents : List String → List ReadEvent
  | [] => []
  | [s] => [.chunk NO_ERROR (utf8Encode s)]
  | s :: t :: rest => .chunk ERROR_MORE_DATA (utf8Encode s) :: mkReadEvents (t :: rest)

/-- A representative "pipe busy" transient error. -/
def pipeBusyErr : WinErr :=
  ⟨ERROR_PIPE_BUSY, "CreateFile", "All pipe instances are busy."⟩

/-- A representative non-transient open error ("access denied"). -/
def accessDeniedErr : WinErr :=
  ⟨5, "CreateFile", "Access is denied."⟩

/-! ## General lemmas about the embedding -/

theorem utf8EncodeChar_ne_nil (n : Nat) : utf8EncodeChar n ≠ [] := by
  unfold utf8EncodeChar
  split_ifs <;> simp

set_option maxRecDepth 4000 in
theorem utf8DecodeOne_encodeChar (n : Nat) (hv : Nat.isValidChar n) (tail : List Nat) :
    utf8DecodeOne (utf8EncodeChar n ++ tail) = some (n, tail) := by
  have hrange : n < 55296 ∨ (57343 < n ∧ n < 1114112) := by
    unfold Nat.isValidChar at hv
    omega
  unfold utf8EncodeChar
  split_ifs with h1 h2 h3
  · simp only [List.cons_append, List.nil_append, utf8DecodeOne, if_pos h1]
  · have hb1 : ¬(192 + n / 64 < 128) := by omega
    have hb2 : ¬(192 + n / 64 < 194) := by omega
    have hb3 : 192 + n / 64 < 224 := by omega
    have hc : isCont (128 + n % 64) = true := by simp [isCont]; omega
    simp only [List.cons_append, List.nil_append, utf8DecodeOne, if_neg hb1, if_neg hb2,
      if_pos hb3, hc, if_pos]
    congr 2
    omega
  · have hb1 : ¬(224 + n / 4096 < 128) := by omega
    have hb2 : ¬(224 + n / 4096 < 194) := by omega
    have hb3 : ¬(224 + n / 4096 < 224) := by omega
    have hb4 : 224 + n / 4096 < 240 := by omega
    have hc1 : isCont (128 + n / 64 % 64) = true := by simp [isCont]; omega
    have hc2 : isCont (128 + n % 64) = true := by simp [isCont]; omega
    have hval : (224 + n / 4096 - 224) * 4096 + (128 + n / 64 % 64 - 128) * 64
        + (128 + n % 64 - 128) = n := by omega
    simp only [List.cons_append, List.nil_append, utf8DecodeOne, if_neg hb1, if_neg hb2,
      if_neg hb3, if_pos hb4, hc1, hc2, Bool.and_self, if_pos, hval]
    have hno1 : ¬(n < 2048) := by omega
    have hno2 : (55296 ≤ n && n < 57344) = false := by
      simp only [Bool.and_eq_false_iff, decide_eq_false_iff_not]
      omega
    simp [hno1, hno2]
  · have hb1 : ¬(240 + n / 262144 < 128) := by omega
    have hb2 : ¬(240 + n / 262144 < 194) := by omega
    have hb3 : ¬(240 + n / 262144 < 224) := by omega
    have hb4 : ¬(240 + n / 262144 < 240) := by omega
    have hb5 : 240 + n / 262144 < 245 := by omega
    have hc1 : isCont (128 + n / 4096 % 64) = true := by simp [isCont]; omega
    have hc2 : isCont (128 + n / 64 % 64) = true := by simp [isCont]; omega
    have hc3 : isCont (128 + n % 64) = true := by simp [isCont]; omega
    have hval : (240 + n / 262144 - 240) * 262144 + (128 + n / 4096 % 64 - 128) * 4096
        + (128 + n / 64 % 64 - 128) * 64 + (128 + n % 64 - 128) = n := by omega
    simp only [List.cons_append, List.nil_append, utf8DecodeOne, if_neg hb1, if_neg hb2,
      if_neg hb3, if_neg hb4, if_pos hb5, hc1, hc2, hc3, Bool.and_self, if_pos, hval]
    have hno1 : ¬(n < 65536) := by omega
    have hno2 : ¬(1114112 ≤ n) := by omega
    simp [hno1, hno2]

theorem utf8DecodeAux_nil (fuel : Nat) : utf8DecodeAux fuel [] = some [] := by
  cases fuel <;> rfl

theorem utf8DecodeAux_cons_eq (fuel : Nat) (bs : List Nat) (n : Nat) (rest : List Nat)
    (hne : bs ≠ []) (h : utf8DecodeOne bs = some (n, rest)) :
    utf8DecodeAux (fuel + 1) bs = (utf8DecodeAux fuel rest).map (fun l => n :: l) := by
  cases bs with
  | nil => exact absurd rfl hne
  | cons b bs' => simp [utf8DecodeAux, h]

theorem char_toNat_valid (c : Char) : Nat.isValidChar c.toNat := by
  have h := c.valid
  unfold UInt32.isValidChar at h
  exact h

theorem utf8DecodeAux_encodeChars (l : List Char) :
    ∀ (fuel : Nat) (tail : List Nat),
      utf8DecodeAux (l.length + fuel) (utf8EncodeChars l ++ tail)
        = (utf8DecodeAux fuel tail).map (fun t => l.map Char.toNat ++ t) := by
  induction l with
  | nil =>
    intro fuel tail
    simp [utf8EncodeChars]
  | cons c l ih =>
    intro fuel tail
    have hchars : utf8EncodeChars (c :: l) ++ tail
        = utf8EncodeChar c.toNat ++ (utf8EncodeChars l ++ tail) := by
      simp [utf8EncodeChars]
    have hlen : (c :: l).length + fuel = (l.length + fuel) + 1 := by
      simp [List.length_cons]
      omega
    rw [hchars, hlen,
      utf8DecodeAux_cons_eq (l.length + fuel) _ c.toNat (utf8EncodeChars l ++ tail)
        (by
          intro hnil
          exact utf8EncodeChar_ne_nil c.toNat (List.append_eq_nil.mp hnil).1)
        (utf8DecodeOne_encodeChar c.toNat (char_toNat_valid c) _),
      ih fuel tail]
    cases utf8DecodeAux fuel tail <;> simp

theorem length_le_encodeChars (l : List Char) : l.length ≤ (utf8EncodeChars l).length := by
  induction l with
  | nil => simp [utf8EncodeChars]
  | cons c l ih =>
    have h : utf8EncodeChars (c :: l) = utf8EncodeChar c.toNat ++ utf8EncodeChars l := by
      simp [utf8EncodeChars]
    rw [h]
    simp only [List.length_cons, List.length_append]
    have hpos : 1 ≤ (utf8EncodeChar c.toNat).length := by
      rcases h' : utf8EncodeChar c.toNat with _ | ⟨a, b⟩
      · exact absurd h' (utf8EncodeChar_ne_nil c.toNat)
      · simp
    omega

theorem utf8DecodeNat_encode (l : List Char) :
    utf8DecodeNat (utf8EncodeChars l) = some (l.map Char.toNat) := by
  obtain ⟨k, hk⟩ := Nat.le.dest (length_le_encodeChars l)
  unfold utf8DecodeNat
  rw [← hk]
  have h := utf8DecodeAux_encodeChars l k []
  rw [List.append_nil] at h
  rw [h, utf8DecodeAux_nil]
  exact congrArg some (List.append_nil _)

/-- Round trip: decoding the UTF-8 encoding of a string yields the string. -/
theorem utf8Decode_utf8Encode (s : String) : utf8Decode (utf8Encode s) = some s := by
  unfold utf8Decode utf8Encode
  rw [utf8DecodeNat_encode]
  show some (String.mk ((s.data.map Char.toNat).map Char.ofNat)) = some s
  have h : (s.data.map Char.toNat).map Char.ofNat = s.data := by
    rw [List.map_map]
    exact (List.map_congr_left (fun c _ => Char.ofNat_toNat c)).trans (List.map_id s.data)
  rw [h]

theorem foldl_append_data (ps : List String) : ∀ (a : String),
    (ps.foldl (· ++ ·) a).data = a.data ++ (ps.map String.data).flatten := by
  induction ps with
  | nil => intro a; simp
  | cons s ps ih =>
    intro a
    simp only [List.foldl_cons, List.map_cons, List.flatten_cons]
    rw [ih (a ++ s), String.data_append]
    simp [List.append_assoc]

theorem join_data (ps : List String) :
    (String.join ps).data = (ps.map String.data).flatten := by
  have h := foldl_append_data ps ""
  simp at h
  exact h

theorem utf8EncodeChars_append (l1 l2 : List Char) :
    utf8EncodeChars (l1 ++ l2) = utf8EncodeChars l1 ++ utf8EncodeChars l2 := by
  simp [utf8EncodeChars]

/-- The bytes of a concatenated message are the concatenation of the bytes of
its pieces: a chunking of `utf8Encode (String.join ps)` at character
boundaries is exactly `ps.map utf8Encode`. -/
theorem utf8Encode_join (ps : List String) :
    utf8Encode (String.join ps) = (ps.map utf8Encode).flatten := by
  have key : ∀ (qs : List String),
      utf8EncodeChars ((qs.map String.data).flatten) = (qs.map utf8Encode).flatten := by
    intro qs
    induction qs with
    | nil => rfl
    | cons s qs ih =>
      simp only [List.map_cons, List.flatten_cons]
      rw [utf8EncodeChars_append, ih]
      rfl
  show utf8EncodeChars (String.join ps).data = _
  rw [join_data, key]

/-- Reassembly: a chunked delivery of the pieces `ps` is read back as the
join of the pieces appended to the fragments accumulated so far. -/
theorem readLoop_mkReadEvents (ps : List String) (h : ps ≠ []) :
    ∀ acc, readLoop acc (mkReadEvents ps) = .ok (String.join (acc ++ ps)) := by
  induction ps with
  | nil => exact absurd rfl h
  | cons s tail ih =>
    cases tail with
    | nil =>
      intro acc
      show readLoop acc [.chunk NO_ERROR (utf8Encode s)] = _
      simp only [readLoop, utf8Decode_utf8Encode]
      norm_num [ERROR_MORE_DATA, NO_ERROR]
    | cons t rest =>
      intro acc
      show readLoop acc (.chunk ERROR_MORE_DATA (utf8Encode s) :: mkReadEvents (t :: rest)) = _
      simp only [readLoop, utf8Decode_utf8Encode]
      simp only [if_true]
      rw [ih (by simp) (acc ++ [s])]
      simp

theorem connectLoop_cons_nontransient (T elapsed d : Int) (e : WinErr)
    (rest : List (Int × Option WinErr)) (h : transientCode e.winerror = false) :
    connectLoop T elapsed ((d, some e) :: rest) = ⟨.err (.winError e), elapsed + d, 1⟩ := by
  simp [connectLoop, h]

theorem connectLoop_cons_timeout (T elapsed d : Int) (e : WinErr)
    (rest : List (Int × Option WinErr)) (h : transientCode e.winerror = true)
    (hT : elapsed + d > T) :
    connectLoop T elapsed ((d, some e) :: rest)
      = ⟨.err (.namedPipeTimeout (elapsed + d) e), elapsed + d + SLEEP_MS, 1⟩ := by
  simp [connectLoop, h, hT]

theorem connectLoop_cons_retry (T elapsed d : Int) (e : WinErr)
    (rest : List (Int × Option WinErr)) (h : transientCode e.winerror = true)
    (hT : ¬(elapsed + d > T)) :
    connectLoop T elapsed ((d, some e) :: rest)
      = ⟨(connectLoop T (elapsed + d + SLEEP_MS) rest).out,
         (connectLoop T (elapsed + d + SLEEP_MS) rest).elapsedMs,
         (connectLoop T (elapsed + d + SLEEP_MS) rest).used + 1⟩ := by
  simp [connectLoop, h, hT]

theorem connectLoop_timeout_inv (attempts : List (Int × Option WinErr)) :
    ∀ (T elapsed d : Int) (e : WinErr),
      (connectLoop T elapsed attempts).out = .err (.namedPipeTimeout d e) →
      T < d ∧ (connectLoop T elapsed attempts).elapsedMs = d + SLEEP_MS
        ∧ transientCode e.winerror = true := by
  induction attempts with
  | nil =>
    intro T elapsed d e h
    exact absurd h (by simp [connectLoop])
  | cons a rest ih =>
    intro T elapsed d e h
    obtain ⟨d0, r⟩ := a
    cases r with
    | none => exact absurd h (by simp [connectLoop])
    | some e0 =>
      by_cases ht : transientCode e0.winerror
      · by_cases hT : elapsed + d0 > T
        · rw [connectLoop_cons_timeout T elapsed d0 e0 rest ht hT] at h ⊢
          obtain ⟨h1, h2⟩ := by simpa using h
          refine ⟨by omega, by simp [h1], ?_⟩
          rw [← h2]
          exact ht
        · rw [connectLoop_cons_retry T elapsed d0 e0 rest ht hT] at h ⊢
          exact ih T (elapsed + d0 + SLEEP_MS) d e h
      · rw [connectLoop_cons_nontransient T elapsed d0 e0 rest (by simpa using ht)] at h
        exact absurd h (by simp)

theorem connectLoop_replicate_timeout (n : Nat) :
    ∀ (T elapsed : Int) (e : WinErr), transientCode e.winerror = true →
      elapsed ≤ T + SLEEP_MS → T < elapsed + SLEEP_MS * ((n : Int) - 1) →
      ∃ d, (connectLoop T elapsed (List.replicate n (0, some e))).out
              = .err (.namedPipeTimeout d e)
        ∧ T < d ∧ d ≤ T + SLEEP_MS
        ∧ (connectLoop T elapsed (List.replicate n (0, some e))).elapsedMs = d + SLEEP_MS := by
  induction n with
  | zero =>
    intro T elapsed e _ h1 h2
    exfalso
    simp [SLEEP_MS] at h1 h2
    omega
  | succ n ih =>
    intro T elapsed e ht h1 h2
    rw [List.replicate_succ]
    by_cases hT : elapsed + 0 > T
    · rw [connectLoop_cons_timeout T elapsed 0 e _ ht hT]
      exact ⟨elapsed + 0, by simp, by omega, by omega, by simp⟩
    · rw [connectLoop_cons_retry T elapsed 0 e _ ht hT]
      have := ih T (elapsed + 0 + SLEEP_MS) e ht
        (by simp [SLEEP_MS] at hT ⊢; omega)
        (by
          simp only [SLEEP_MS] at h2 ⊢
          push_cast at h2 ⊢
          omega)
      obtain ⟨d, hd1, hd2, hd3, hd4⟩ := this
      exact ⟨d, hd1, hd2, hd3, hd4⟩

theorem connectLoop_out_cases (attempts : List (Int × Option WinErr)) :
    ∀ (T elapsed : Int),
      (connectLoop T elapsed attempts).out = .ok ()
      ∨ (connectLoop T elapsed attempts).out = .hang
      ∨ (∃ d e, (connectLoop T elapsed attempts).out = .err (.namedPipeTimeout d e))
      ∨ (∃ e, (connectLoop T elapsed attempts).out = .err (.winError e)) := by
  induction attempts with
  | nil => intro T elapsed; right; left; simp [connectLoop]
  | cons a rest ih =>
    intro T elapsed
    obtain ⟨d0, r⟩ := a
    cases r with
    | none => left; simp [connectLoop]
    | some e0 =>
      by_cases ht : transientCode e0.winerror
      · by_cases hT : elapsed + d0 > T
        · rw [connectLoop_cons_timeout T elapsed d0 e0 rest ht hT]
          right; right; left
          exact ⟨elapsed + d0, e0, rfl⟩
        · rw [connectLoop_cons_retry T elapsed d0 e0 rest ht hT]
          exact ih T (elapsed + d0 + SLEEP_MS)
      · rw [connectLoop_cons_nontransient T elapsed d0 e0 rest (by simpa using ht)]
        right; right; right
        exact ⟨e0, rfl⟩

theorem establish_ok_opened (env : Env) (T : Int)
    (h : (establish_named_pipe_connection env T).out = .ok ()) :
    (establish_named_pipe_connection env T).opened = true := by
  unfold establish_named_pipe_connection at h ⊢
  rcases hout : (connectLoop T 0 env.attempts).out with _ | e
  · rcases hs : env.setState with _ | e0 <;> simp [hout, hs]
  · simp [hout] at h
  · simp [hout] at h

theorem send_req_reduce (env : Env) (T : Int) (m p : String)
    (pr b : Option (List (String × Json)))
    (h1 : (establish_named_pipe_connection env T).out = .ok ())
    (h2 : wireMessage m p pr b ≠ none)
    (h3 : env.writeResult = none) :
    send_named_pipe_request env T m p pr b =
      (match read_from_pipe env.readEvents with
        | .hang => ⟨.hang, true, 0⟩
        | .err e => ⟨.err e, true, 1⟩
        | .ok raw =>
          match pyJsonLoads raw with
          | none => ⟨.err .jsonDecodeError, true, 1⟩
          | some v => ⟨.ok v, true, 1⟩) := by
  have hop := establish_ok_opened env T h1
  obtain ⟨msg, hmsg⟩ := Option.ne_none_iff_exists'.mp h2
  unfold send_named_pipe_request
  simp only [h1, hop, hmsg, h3, write_to_pipe]

theorem handle_pipe_exception_shape (e : WinErr) :
    (∃ d, handle_pipe_exception e = .pipeDisconnected d)
    ∨ handle_pipe_exception e = .winError e := by
  unfold handle_pipe_exception
  split_ifs with h
  · exact Or.inl ⟨mkPipeDisconnected e, rfl⟩
  · exact Or.inr rfl

theorem readLoop_ne_recursion (evs : List ReadEvent) :
    ∀ acc, readLoop acc evs ≠ .err .recursionError := by
  induction evs with
  | nil => intro acc; simp [readLoop]
  | cons ev rest ih =>
    intro acc
    cases ev with
    | fail e =>
      show readLoop acc (.fail e :: rest) ≠ _
      rcases handle_pipe_exception_shape e with ⟨d, hd⟩ | hw
      · simp [readLoop, hd]
      · simp [readLoop, hw]
    | chunk rc data =>
      show readLoop acc (.chunk rc data :: rest) ≠ _
      rcases hdec : utf8Decode data with _ | s
      · simp [readLoop, hdec]
      · by_cases hmore : rc = ERROR_MORE_DATA
        · simpa [readLoop, hdec, hmore] using ih (acc ++ [s])
        · by_cases hok : rc = NO_ERROR
          · simp [readLoop, hdec, hmore, hok, NO_ERROR, ERROR_MORE_DATA]
          · simp only [ERROR_MORE_DATA] at hmore
            simp only [NO_ERROR] at hok
            simp [readLoop, hdec, hmore, hok, ERROR_MORE_DATA, NO_ERROR]

theorem establish_err_shape (env : Env) (T : Int) (e : PyErr)
    (h : (establish_named_pipe_connection env T).out = .err e) :
    (∃ d we, e = .namedPipeTimeout d we) ∨ (∃ we, e = .winError we) := by
  unfold establish_named_pipe_connection at h
  rcases hout : (connectLoop T 0 env.attempts).out with _ | e1
  · rcases hs : env.setState with _ | e0
    · simp [hout, hs] at h
    · simp only [hout, hs] at h
      obtain rfl : PyErr.winError e0 = e := by simpa using h
      exact Or.inr ⟨e0, rfl⟩
  · simp only [hout] at h
    obtain rfl : e1 = e := by simpa using h
    rcases connectLoop_out_cases env.attempts T 0 with hc | hc | ⟨d, we, hc⟩ | ⟨we, hc⟩
    · rw [hout] at hc; exact absurd hc (by simp)
    · rw [hout] at hc; exact absurd hc (by simp)
    · rw [hout] at hc
      obtain rfl : PyErr.namedPipeTimeout d we = e1 := by simpa using hc.symm
      exact Or.inl ⟨d, we, rfl⟩
    · rw [hout] at hc
      obtain rfl : PyErr.winError we = e1 := by simpa using hc.symm
      exact Or.inr ⟨we, rfl⟩
  · simp [hout] at h

theorem send_result_recursion (env : Env) (T : Int) (m p : String)
    (pr b : Option (List (String × Json)))
    (h : (send_named_pipe_request env T m p pr b).result = .err .recursionError) :
    wireMessage m p pr b = none := by
  unfold send_named_pipe_request at h
  rcases hout : (establish_named_pipe_connection env T).out with _ | e
  · rcases hw : wireMessage m p pr b with _ | msg
    · rfl
    · exfalso
      rcases hwr : env.writeResult with _ | e0
      · rcases hr : read_from_pipe env.readEvents with raw | e1
        · rcases hl : pyJsonLoads raw with _ | v
          · simp [hout, hw, hwr, write_to_pipe, hr, hl] at h
          · simp [hout, hw, hwr, write_to_pipe, hr, hl] at h
        · simp [hout, hw, hwr, write_to_pipe, hr] at h
          exact readLoop_ne_recursion env.readEvents []
            (by rw [h] at hr; exact hr)
        · simp [hout, hw, hwr, write_to_pipe, hr] at h
      · rcases handle_pipe_exception_shape e0 with ⟨d, hd⟩ | hww
        · simp [hout, hw, hwr, write_to_pipe, hd] at h
        · simp [hout, hw, hwr, write_to_pipe, hww] at h
  · exfalso
    simp only [hout] at h
    obtain rfl : e = PyErr.recursionError := by simpa using h
    rcases establish_err_shape env T _ hout with ⟨d, we, hsh⟩ | ⟨we, hsh⟩
    · exact PyErr.noConfusion hsh
    · exact PyErr.noConfusion hsh
  · simp [hout] at h

/-! ## Claims -/

/-- C3: `_handle_pipe_exception` maps the three disconnection codes
(broken pipe, pipe not connected, invalid handle) to
`PipeDisconnectedException` carrying the original code, failing operation
name and message; every other code is re-surfaced unchanged as the original
`pywintypes.error`. -/
theorem claim_C3_classifier (w : Int) (f s : String) :
    ((w = ERROR_BROKEN_PIPE ∨ w = ERROR_PIPE_NOT_CONNECTED ∨ w = ERROR_INVALID_HANDLE) →
      handle_pipe_exception ⟨w, f, s⟩
        = .pipeDisconnected ⟨w, f, s,
            "An error occurred: " ++ s ++ " (Error code: " ++ toString w
              ++ ") in function " ++ f⟩)
    ∧ (w ≠ ERROR_BROKEN_PIPE → w ≠ ERROR_PIPE_NOT_CONNECTED → w ≠ ERROR_INVALID_HANDLE →
      handle_pipe_exception ⟨w, f, s⟩ = .winError ⟨w, f, s⟩) := by
  constructor
  · intro h
    unfold handle_pipe_exception
    rw [if_pos (by simpa using h)]
    rfl
  · intro h1 h2 h3
    unfold handle_pipe_exception
    rw [if_neg (by simp [h1, h2, h3])]

/-- Witness for C3 at the codes 109 (broken pipe, classified) and 5 (access
denied, re-raised unchanged). -/
theorem claim_C3_witness :
    handle_pipe_exception ⟨109, "ReadFile", "broken"⟩
      = .pipeDisconnected ⟨109, "ReadFile", "broken",
          "An error occurred: broken (Error code: 109) in function ReadFile"⟩
    ∧ handle_pipe_exception ⟨5, "ReadFile", "denied"⟩ = .winError ⟨5, "ReadFile", "denied"⟩ :=
  ⟨by
    have h := (claim_C3_classifier 109 "ReadFile" "broken").1 (Or.inl rfl)
    simpa using h,
   (claim_C3_classifier 5 "ReadFile" "denied").2 (by decide) (by decide) (by decide)⟩

/-- C4 (corrected): in the open loop of `establish_named_pipe_connection`, a
failed attempt is retried (the loop moves on to the next attempt after the
100 ms backoff sleep, consuming one extra attempt) exactly when its code is
`ERROR_FILE_NOT_FOUND` or `ERROR_PIPE_BUSY` *and* the pre-sleep elapsed time
has not exceeded the timeout; a transient failure past the deadline raises
`NamedPipeTimeoutError` instead of retrying; any other code propagates
immediately as the re-raised `pywintypes.error`, with no backoff sleep and
without waiting out the timeout. -/
theorem claim_C4_retry_exactly_for_transient_codes (T elapsed d : Int) (e : WinErr)
    (rest : List (Int × Option WinErr)) :
    (transientCode e.winerror = false →
      connectLoop T elapsed ((d, some e) :: rest) = ⟨.err (.winError e), elapsed + d, 1⟩)
    ∧ (transientCode e.winerror = true → elapsed + d ≤ T →
      connectLoop T elapsed ((d, some e) :: rest)
        = ⟨(connectLoop T (elapsed + d + SLEEP_MS) rest).out,
           (connectLoop T (elapsed + d + SLEEP_MS) rest).elapsedMs,
           (connectLoop T (elapsed + d + SLEEP_MS) rest).used + 1⟩)
    ∧ (transientCode e.winerror = true → T < elapsed + d →
      connectLoop T elapsed ((d, some e) :: rest)
        = ⟨.err (.namedPipeTimeout (elapsed + d) e), elapsed + d + SLEEP_MS, 1⟩)
    ∧ (∀ env : Env, transientCode e.winerror = false → env.attempts = (d, some e) :: rest →
      establish_named_pipe_connection env T = ⟨.err (.winError e), false, 0 + d, 1⟩) := by
  refine ⟨?_, ?_, ?_, ?_⟩
  · exact fun h => connectLoop_cons_nontransient T elapsed d e rest h
  · exact fun h hT => connectLoop_cons_retry T elapsed d e rest h (by omega)
  · exact fun h hT => connectLoop_cons_timeout T elapsed d e rest h (by omega)
  · intro env h hat
    unfold establish_named_pipe_connection
    rw [hat, connectLoop_cons_nontransient T 0 d e rest h]

/-- Witness for C4 (corrected): a non-transient "access denied" failure
propagates immediately with one attempt consumed and no sleep; a transient
"pipe busy" failure within the deadline is retried. -/
theorem claim_C4_witness :
    connectLoop 5000 0 [(3, some accessDeniedErr)]
      = ⟨.err (.winError accessDeniedErr), 0 + 3, 1⟩
    ∧ connectLoop 5000 0 [(3, some pipeBusyErr), (2, none)]
      = ⟨(connectLoop 5000 (0 + 3 + SLEEP_MS) [(2, none)]).out,
         (connectLoop 5000 (0 + 3 + SLEEP_MS) [(2, none)]).elapsedMs,
         (connectLoop 5000 (0 + 3 + SLEEP_MS) [(2, none)]).used + 1⟩
    ∧ connectLoop 40 100 [(3, some pipeBusyErr)]
      = ⟨.err (.namedPipeTimeout (100 + 3) pipeBusyErr), 100 + 3 + SLEEP_MS, 1⟩ :=
  ⟨(claim_C4_retry_exactly_for_transient_codes 5000 0 3 accessDeniedErr []).1 (by decide),
   (claim_C4_retry_exactly_for_transient_codes 5000 0 3 pipeBusyErr [(2, none)]).2.1
     (by decide) (by decide),
   (claim_C4_retry_exactly_for_transient_codes 40 100 3 pipeBusyErr []).2.2.1
     (by decide) (by decide)⟩

/-- Counterexample to C4 as stated: an open failure whose code is pipe-busy
(transient) is nevertheless *not* retried when the pre-sleep elapsed time
already exceeds the timeout: with a 0 ms timeout a single 10 ms busy attempt
raises `NamedPipeTimeoutError` with only one attempt consumed and no further
open attempted. -/
theorem claim_C4_counterexample :
    establish_named_pipe_connection ⟨[(10, some pipeBusyErr)], none, none, []⟩ 0
      = ⟨.err (.namedPipeTimeout 10 pipeBusyErr), false, 110, 1⟩
    ∧ transientCode pipeBusyErr.winerror = true := ⟨rfl, rfl⟩

/-- C5 (corrected): on every transient open failure the loop first computes
the elapsed time, *then* sleeps 100 ms, and raises `NamedPipeTimeoutError` —
carrying that pre-sleep elapsed duration and the last transient error —
exactly when the pre-sleep elapsed time exceeds the timeout. Hence whenever
the loop raises Timeout the wall-clock time at the raise is the carried
duration plus one 100 ms backoff interval (so strictly more than the timeout),
and when the server never becomes connectable (all attempts fail transiently
and instantaneously) Timeout is raised with a carried duration within one
backoff interval of the timeout and at a wall-clock time within two backoff
intervals of it — not within one, as claimed. -/
theorem claim_C5_timeout_timing :
    (∀ (attempts : List (Int × Option WinErr)) (T d : Int) (e : WinErr),
      (connectLoop T 0 attempts).out = .err (.namedPipeTimeout d e) →
      T < d ∧ (connectLoop T 0 attempts).elapsedMs = d + SLEEP_MS
        ∧ transientCode e.winerror = true)
    ∧ (∀ (n : Nat) (T : Int) (e : WinErr), transientCode e.winerror = true →
      0 ≤ T → T < SLEEP_MS * ((n : Int) - 1) →
      ∃ d, (connectLoop T 0 (List.replicate n (0, some e))).out
              = .err (.namedPipeTimeout d e)
        ∧ T < d ∧ d ≤ T + SLEEP_MS
        ∧ (connectLoop T 0 (List.replicate n (0, some e))).elapsedMs = d + SLEEP_MS) := by
  constructor
  · intro attempts T d e h
    exact connectLoop_timeout_inv attempts T 0 d e h
  · intro n T e ht h0 hn
    exact connectLoop_replicate_timeout n T 0 e ht (by simp [SLEEP_MS]; omega)
      (by simpa using hn)

/-- Witness for C5 (corrected): with a 50 ms timeout and instantaneous busy
attempts, the raise carries duration 100 (pre-sleep elapsed, greater than the
timeout) and happens at wall-clock time 100 + 100. -/
theorem claim_C5_witness :
    ((50 : Int) < 100
      ∧ (connectLoop 50 0 [(0, some pipeBusyErr), (0, some pipeBusyErr)]).elapsedMs
          = 100 + SLEEP_MS
      ∧ transientCode pipeBusyErr.winerror = true)
    ∧ ∃ d, (connectLoop 50 0 (List.replicate 3 (0, some pipeBusyErr))).out
            = .err (.namedPipeTimeout d pipeBusyErr)
      ∧ (50 : Int) < d ∧ d ≤ 50 + SLEEP_MS
      ∧ (connectLoop 50 0 (List.replicate 3 (0, some pipeBusyErr))).elapsedMs = d + SLEEP_MS :=
  ⟨claim_C5_timeout_timing.1 [(0, some pipeBusyErr), (0, some pipeBusyErr)] 50 100 pipeBusyErr
      rfl,
   claim_C5_timeout_timing.2 3 50 pipeBusyErr rfl (by decide) (by decide)⟩

/-- Counterexample to C5 as stated: with a 50 ms timeout and two
instantaneous busy attempts, the loop checks the *pre-sleep* elapsed time
(0, then 100), so it retries after the first failure and raises only on the
second, at wall-clock time 200 — more than one backoff interval past the
timeout. Had the loop slept first and then recomputed the elapsed time as
claimed, it would have raised on the first failure. -/
theorem claim_C5_counterexample :
    connectLoop 50 0 [(0, some pipeBusyErr), (0, some pipeBusyErr)]
      = ⟨.err (.namedPipeTimeout 100 pipeBusyErr), 200, 2⟩
    ∧ (50 : Int) + SLEEP_MS < 200 := ⟨rfl, by decide⟩

/-- C6 (corrected): for every message and every chunking of its UTF-8 bytes
at character boundaries (each chunk delivered with `ERROR_MORE_DATA` until the
last, delivered with `NO_ERROR`), `read_from_pipe` returns exactly the string
whose encoding `write_to_pipe` wrote, with no loss or duplication; the chunks
are exactly a partition of the written bytes. (A chunking that splits inside
a multibyte character makes the per-chunk UTF-8 decode fail instead — see the
counterexample.) -/
theorem claim_C6_write_read_roundtrip (ps : List String) (h : ps ≠ []) :
    read_from_pipe (mkReadEvents ps) = .ok (String.join ps)
    ∧ (ps.map utf8Encode).flatten = write_to_pipe_bytes (String.join ps) := by
  constructor
  · have hr := readLoop_mkReadEvents ps h []
    simpa using hr
  · exact (utf8Encode_join ps).symm

/-- Witness for C6 (corrected): the message "abéc" delivered in three chunks
of varying size is reassembled byte-for-byte. -/
theorem claim_C6_witness :
    read_from_pipe (mkReadEvents ["ab", "é", "c"]) = .ok (String.join ["ab", "é", "c"])
    ∧ (["ab", "é", "c"].map utf8Encode).flatten
        = write_to_pipe_bytes (String.join ["ab", "é", "c"]) :=
  claim_C6_write_read_roundtrip ["ab", "é", "c"] (by decide)

/-- Counterexample to C6 as stated: the two-chunk split `[[195], [169]]` of
the written bytes `utf8Encode "é" = [195, 169]` is a legitimate way for the
transport to split the message, yet `read_from_pipe` raises
`UnicodeDecodeError` (the first chunk is not valid UTF-8 on its own) instead
of returning "é". -/
theorem claim_C6_counterexample :
    utf8Encode "é" = [195, 169]
    ∧ [195] ++ [169] = utf8Encode "é"
    ∧ read_from_pipe [.chunk ERROR_MORE_DATA [195], .chunk NO_ERROR [169]]
        = .err .unicodeDecodeError
    ∧ read_from_pipe [.chunk ERROR_MORE_DATA [195], .chunk NO_ERROR [169]] ≠ .ok "é" :=
  ⟨rfl, rfl, rfl, fun h => nomatch h⟩

/-- C7: the wire envelope contains exactly `method` and `path`, plus — when
`json_body`/`params` are truthy — a `body` and then a `params` field, each the
JSON re-serialization of its mapping as a string (double-encoded); concretely,
`method="GET"`, `path="/status"` with no body/params yields exactly the
two-field envelope, and `body={"x": 1}` yields a `body` field equal to the
string `"\x7b\"x\": 1\x7d"` (the JSON text of the mapping, quoted again when the
envelope itself is serialized). -/
theorem claim_C7_envelope_fields (method path : String) :
    envelopeDict method path none none
        = some [("method", .str method), ("path", .str path)]
    ∧ (∀ (body : List (String × Json)) (s : String), body ≠ [] →
      pyJsonDumps (.obj body) = some s →
      envelopeDict method path none (some body)
        = some [("method", .str method), ("path", .str path), ("body", .str s)])
    ∧ (∀ (prms : List (String × Json)) (s : String), prms ≠ [] →
      pyJsonDumps (.obj prms) = some s →
      envelopeDict method path (some prms) none
        = some [("method", .str method), ("path", .str path), ("params", .str s)])
    ∧ (∀ (body prms : List (String × Json)) (sb sq : String), body ≠ [] → prms ≠ [] →
      pyJsonDumps (.obj body) = some sb → pyJsonDumps (.obj prms) = some sq →
      envelopeDict method path (some prms) (some body)
        = some [("method", .str method), ("path", .str path),
                ("body", .str sb), ("params", .str sq)])
    ∧ envelopeDict "GET" "/status" none none
        = some [("method", .str "GET"), ("path", .str "/status")]
    ∧ pyJsonDumps (.obj [("x", .num 1)]) = some "\x7b\"x\": 1\x7d"
    ∧ envelopeDict method path none (some [("x", .num 1)])
        = some [("method", .str method), ("path", .str path),
                ("body", .str "\x7b\"x\": 1\x7d")]
    ∧ wireMessage "GET" "/status" none none
        = some "\x7b\"method\": \"GET\", \"path\": \"/status\"\x7d" := by
  refine ⟨by simp [envelopeDict, pyTruthy], ?_, ?_, ?_, rfl, rfl, ?_, rfl⟩
  · intro body s hb hd
    have hbe : body.isEmpty = false := by cases body <;> simp_all
    simp [envelopeDict, pyTruthy, hbe, hd]
  · intro prms s hp hd
    have hpe : prms.isEmpty = false := by cases prms <;> simp_all
    simp [envelopeDict, pyTruthy, hpe, hd]
  · intro body prms sb sq hb hp hdb hdp
    have hbe : body.isEmpty = false := by cases body <;> simp_all
    have hpe : prms.isEmpty = false := by cases prms <;> simp_all
    simp [envelopeDict, pyTruthy, hbe, hpe, hdb, hdp]
  · have : ([("x", Json.num 1)] : List (String × Json)).isEmpty = false := rfl
    simp [envelopeDict, pyTruthy, this]
    rfl

/-- Witness for C7: the general body-field clause instantiated at
`body = {"x": 1}`. -/
theorem claim_C7_witness :
    envelopeDict "POST" "/run" none (some [("x", .num 1)])
      = some [("method", .str "POST"), ("path", .str "/run"),
              ("body", .str "\x7b\"x\": 1\x7d")] :=
  (claim_C7_envelope_fields "POST" "/run").2.1 [("x", .num 1)] "\x7b\"x\": 1\x7d"
    (by simp) rfl

/-- C10: an empty `params` or `json_body` mapping is omitted from the
envelope exactly as if the argument had not been supplied: field presence is
decided by Python truthiness (non-emptiness), not by non-`None`-ness. -/
theorem claim_C10_empty_mapping_omitted (method path : String)
    (params json_body : Option (List (String × Json))) :
    envelopeDict method path params (some []) = envelopeDict method path params none
    ∧ envelopeDict method path (some []) json_body
        = envelopeDict method path none json_body
    ∧ envelopeDict method path (some []) (some [])
        = some [("method", .str method), ("path", .str path)] := by
  refine ⟨?_, ?_, ?_⟩ <;> simp [envelopeDict, pyTruthy]

/-- C1: whenever the connection is established, the envelope serializes
successfully, the write succeeds, and the peer replies with one well-formed
JSON message (delivered in any number of chunks), `send_named_pipe_request`
returns exactly the parsed JSON value of that reply (deep equality is
structural equality of the parsed `Json` value), closing the channel once. -/
theorem claim_C1_sendRequest_returns_parsed_response
    (env : Env) (T : Int) (method path : String)
    (params json_body : Option (List (String × Json)))
    (ps : List String) (v : Json)
    (hconn : (establish_named_pipe_connection env T).out = .ok ())
    (hser : wireMessage method path params json_body ≠ none)
    (hwrite : env.writeResult = none)
    (hread : env.readEvents = mkReadEvents ps)
    (hps : ps ≠ [])
    (hresp : pyJsonLoads (String.join ps) = some v) :
    send_named_pipe_request env T method path params json_body = ⟨.ok v, true, 1⟩ := by
  rw [send_req_reduce env T method path params json_body hconn hser hwrite, hread]
  have hr : read_from_pipe (mkReadEvents ps) = .ok (String.join ps) := by
    have := readLoop_mkReadEvents ps hps []
    simpa using this
  simp [hr, hresp]

/-- Witness for C1: a concrete exchange in which the peer replies
`\x7b"ok": true\x7d` in three chunks and the call returns the parsed object. -/
theorem claim_C1_witness :
    send_named_pipe_request
        ⟨[(0, none)], none, none, mkReadEvents ["\x7b\"ok\"", ": tr", "ue\x7d"]⟩
        5000 "GET" "/status" none none
      = ⟨.ok (.obj [("ok", .bool true)]), true, 1⟩ :=
  claim_C1_sendRequest_returns_parsed_response
    ⟨[(0, none)], none, none, mkReadEvents ["\x7b\"ok\"", ": tr", "ue\x7d"]⟩
    5000 "GET" "/status" none none ["\x7b\"ok\"", ": tr", "ue\x7d"]
    (.obj [("ok", .bool true)]) rfl (by decide) rfl rfl (by decide) rfl

/-- C8: once a complete response text has been received, the call fails with
`json.JSONDecodeError` — the dedicated, inspectable decode-failure exception
of this layer (the spec's `ProtocolDecodeFailure`), raised after the channel
has been closed — exactly when the text is not valid JSON; a response that is
valid JSON never produces that failure (the parsed value is returned
instead). -/
theorem claim_C8_protocol_decode_failure
    (env : Env) (T : Int) (method path : String)
    (params json_body : Option (List (String × Json)))
    (ps : List String)
    (hconn : (establish_named_pipe_connection env T).out = .ok ())
    (hser : wireMessage method path params json_body ≠ none)
    (hwrite : env.writeResult = none)
    (hread : env.readEvents = mkReadEvents ps)
    (hps : ps ≠ []) :
    (pyJsonLoads (String.join ps) = none →
      send_named_pipe_request env T method path params json_body
        = ⟨.err .jsonDecodeError, true, 1⟩)
    ∧ ∀ v, pyJsonLoads (String.join ps) = some v →
      (send_named_pipe_request env T method path params json_body).result = .ok v := by
  have hr : read_from_pipe (mkReadEvents ps) = .ok (String.join ps) := by
    have := readLoop_mkReadEvents ps hps []
    simpa using this
  constructor
  · intro hbad
    rw [send_req_reduce env T method path params json_body hconn hser hwrite, hread]
    simp [hr, hbad]
  · intro v hgood
    rw [send_req_reduce env T method path params json_body hconn hser hwrite, hread]
    simp [hr, hgood]

/-- Witness for C8: the malformed reply "not json" yields exactly
`json.JSONDecodeError` (with the channel closed once). -/
theorem claim_C8_witness :
    send_named_pipe_request ⟨[(0, none)], none, none, mkReadEvents ["not ", "json"]⟩
        5000 "GET" "/status" none none
      = ⟨.err .jsonDecodeError, true, 1⟩ :=
  (claim_C8_protocol_decode_failure
      ⟨[(0, none)], none, none, mkReadEvents ["not ", "json"]⟩
      5000 "GET" "/status" none none ["not ", "json"]
      rfl (by decide) rfl rfl (by decide)).1 rfl

/-- C2 (corrected): whenever the request envelope serializes, every failure
of `send_named_pipe_request` surfaces to the caller as one of the four
taxonomy kinds — `Timeout` (`NamedPipeTimeoutError`), `Disconnected`
(`PipeDisconnectedException`), `IOFailure` (a re-raised `pywintypes.error` or
the reader's `IOError`), `ProtocolDecodeFailure` (`json.JSONDecodeError`) —
*except* a chunk of the response that is not valid UTF-8 on its own (for
example a multibyte character split across two `ReadFile` chunks), which
escapes as an uncategorized `UnicodeDecodeError`. No failure is silently
swallowed: every erroneous exchange yields an error result. -/
theorem claim_C2_failures_surface_in_taxonomy
    (env : Env) (T : Int) (method path : String)
    (params json_body : Option (List (String × Json))) (e : PyErr)
    (hser : wireMessage method path params json_body ≠ none)
    (h : (send_named_pipe_request env T method path params json_body).result = .err e) :
    e = .unicodeDecodeError
    ∨ errKind e = .timeout ∨ errKind e = .disconnected ∨ errKind e = .ioFailure
    ∨ errKind e = .protocolDecodeFailure := by
  cases e with
  | pipeDisconnected d => right; right; left; rfl
  | namedPipeTimeout d w => right; left; rfl
  | winError w => right; right; right; left; rfl
  | ioError m => right; right; right; left; rfl
  | jsonDecodeError => right; right; right; right; rfl
  | unicodeDecodeError => left; rfl
  | recursionError =>
    exact absurd (send_result_recursion env T method path params json_body h) hser

/-- Witness for C2 (corrected): a broken-pipe write failure surfaces as the
`Disconnected` kind. -/
theorem claim_C2_witness :
    (PyErr.pipeDisconnected (mkPipeDisconnected ⟨109, "WriteFile", "broken"⟩)
        = .unicodeDecodeError)
    ∨ errKind (.pipeDisconnected (mkPipeDisconnected ⟨109, "WriteFile", "broken"⟩)) = .timeout
    ∨ errKind (.pipeDisconnected (mkPipeDisconnected ⟨109, "WriteFile", "broken"⟩))
        = .disconnected
    ∨ errKind (.pipeDisconnected (mkPipeDisconnected ⟨109, "WriteFile", "broken"⟩)) = .ioFailure
    ∨ errKind (.pipeDisconnected (mkPipeDisconnected ⟨109, "WriteFile", "broken"⟩))
        = .protocolDecodeFailure :=
  claim_C2_failures_surface_in_taxonomy
    ⟨[(0, none)], none, some ⟨109, "WriteFile", "broken"⟩, []⟩
    5000 "GET" "/status" none none
    (.pipeDisconnected (mkPipeDisconnected ⟨109, "WriteFile", "broken"⟩))
    (by decide) rfl

/-- Counterexample to C2 as stated: a response delivered as the chunks
`[195]` and `[169]` (the two bytes of UTF-8 "é" split across chunks — a
decoding fault of the exchange) makes `send_named_pipe_request` fail with
`UnicodeDecodeError`, which belongs to none of the four kinds `Timeout`,
`Disconnected`, `IOFailure`, `ProtocolDecodeFailure`. -/
theorem claim_C2_counterexample :
    (send_named_pipe_request
        ⟨[(0, none)], none, none, [.chunk ERROR_MORE_DATA [195], .chunk NO_ERROR [169]]⟩
        5000 "GET" "/status" none none).result
      = .err .unicodeDecodeError
    ∧ errKind .unicodeDecodeError = .uncategorized := ⟨rfl, rfl⟩

/-- C9 (corrected): on every exit path after `establish_named_pipe_connection`
has returned the handle — success, write failure, read failure, response
decode failure — the handle is closed exactly once; but when
`win32pipe.SetNamedPipeHandleState` fails after `CreateFile` has succeeded,
the error propagates with the freshly opened handle never closed (the
message-mode configuration runs outside the `try`/`finally`). -/
theorem claim_C9_channel_closed_exactly_once
    (env : Env) (T : Int) (method path : String)
    (params json_body : Option (List (String × Json))) :
    ((establish_named_pipe_connection env T).out = .ok () →
      (send_named_pipe_request env T method path params json_body).result ≠ .hang →
      (send_named_pipe_request env T method path params json_body).closes = 1)
    ∧ (∀ e : WinErr, (connectLoop T 0 env.attempts).out = .ok () → env.setState = some e →
      send_named_pipe_request env T method path params json_body
        = ⟨.err (.winError e), true, 0⟩) := by
  constructor
  · intro hconn hnh
    unfold send_named_pipe_request at hnh ⊢
    cases hw : wireMessage method path params json_body with
    | none => simp [hconn, hw]
    | some msg =>
      cases hwr : env.writeResult with
      | some e0 =>
        rcases handle_pipe_exception_shape e0 with ⟨dd, hd⟩ | hww
        · simp [hconn, hw, hwr, write_to_pipe, hd]
        · simp [hconn, hw, hwr, write_to_pipe, hww]
      | none =>
        cases hr : read_from_pipe env.readEvents with
        | ok raw =>
          cases hl : pyJsonLoads raw with
          | none => simp [hconn, hw, hwr, write_to_pipe, hr, hl]
          | some v => simp [hconn, hw, hwr, write_to_pipe, hr, hl]
        | err e1 => simp [hconn, hw, hwr, write_to_pipe, hr]
        | hang =>
          exfalso
          apply hnh
          simp [hconn, hw, hwr, write_to_pipe, hr]
  · intro e hloop hss
    unfold send_named_pipe_request establish_named_pipe_connection
    simp [hloop, hss]

/-- Witness for C9 (corrected): a read that fails mid-call with a broken pipe
still closes the channel exactly once. -/
theorem claim_C9_witness :
    (send_named_pipe_request
        ⟨[(0, none)], none, none, [.fail ⟨109, "ReadFile", "broken"⟩]⟩
        5000 "GET" "/status" none none).closes = 1 :=
  (claim_C9_channel_closed_exactly_once
      ⟨[(0, none)], none, none, [.fail ⟨109, "ReadFile", "broken"⟩]⟩
      5000 "GET" "/status" none none).1 rfl (fun h => nomatch h)

/-- Counterexample to C9 as stated: when `SetNamedPipeHandleState` fails
right after the pipe handle was created, the call errors out with the handle
opened but never closed — the channel is leaked on this exit path. -/
theorem claim_C9_counterexample :
    (send_named_pipe_request
        ⟨[(0, none)], some ⟨5, "SetNamedPipeHandleState", "denied"⟩, none, []⟩
        5000 "GET" "/status" none none).opened = true
    ∧ (send_named_pipe_request
        ⟨[(0, none)], some ⟨5, "SetNamedPipeHandleState", "denied"⟩, none, []⟩
        5000 "GET" "/status" none none).closes = 0 := ⟨rfl, rfl⟩
